import Mathlib

/-!
Shallow embedding of `kube-endpoint-manager` (lablabs/kube-endpoint-manager).

The repository reconciles a Kubernetes Endpoints object against an external
OpenStack inventory.  We embed:
  * the shared data model (`Address`, endpoint subsets, ports),
  * `kubernetes.py` (`Endpoint`: read, refresh, addresses getter/setter,
    ports, diff, patch),
  * `openstack.py` (metadata network selection, address resolution,
    server filters, endpoint list),
  * the tick body of `sync_loop` in `__main__.py`.

External API calls are modelled by passing their results as explicit
parameters (`Except String` for calls that may raise, `Option` for reads
whose exceptions the source catches).  Python exceptions escaping a block
of code are modelled by `Except.error` / a `crashed` field.
-/

set_option autoImplicit false

/-- One Kubernetes endpoint address (`V1EndpointAddress`): hostname,
node name and an optional ip. -/
structure Address where
  hostname : String
  node_name : String
  ip : Option String
deriving DecidableEq, Repr

/-- One port spec carried inside an endpoint subset (`V1EndpointPort`). -/
structure PortSpec where
  name : Option String
  port : Int
  protocol : Option String
deriving DecidableEq, Repr

/-- One endpoint subset (`V1EndpointSubset`): both collections may be
null on the wire, which Python represents as `None`. -/
structure Subset where
  addresses : Option (List Address)
  ports : Option (List PortSpec)
deriving DecidableEq, Repr

/-- Object metadata of the Endpoints resource. -/
structure ObjectMeta where
  name : String
  namespace_ : String
deriving DecidableEq, Repr

/-- The `V1Endpoints` resource body as returned by the cluster API. -/
structure V1Endpoints where
  metadata : ObjectMeta
  subsets : Option (List Subset)
deriving DecidableEq, Repr

/-- One entry of the `DeepDiff` result between two address lists
(default `DeepDiff` settings: list order is significant). -/
inductive DiffEntry where
  | valuesChanged (oldV newV : Address)
  | itemAdded (v : Address)
  | itemRemoved (v : Address)
deriving DecidableEq, Repr

/-- `DeepDiff(t1, t2)` on two address lists with default settings:
element-wise, order-sensitive comparison; extra items of `t2` are
reported as added, extra items of `t1` as removed. -/
def DeepDiff : List Address → List Address → List DiffEntry
  | [], bs => bs.map .itemAdded
  | a :: xs, [] => .itemRemoved a :: DeepDiff xs []
  | a :: xs, b :: bs =>
    if a = b then DeepDiff xs bs
    else .valuesChanged a b :: DeepDiff xs bs

theorem DeepDiff_eq_nil_iff (a b : List Address) : DeepDiff a b = [] ↔ a = b := by
  induction a generalizing b with
  | nil =>
    cases b with
    | nil => simp [DeepDiff]
    | cons x xs => simp [DeepDiff]
  | cons x xs ih =>
    cases b with
    | nil => simp [DeepDiff]
    | cons y ys =>
      by_cases hxy : x = y
      · subst hxy
        simp [DeepDiff, ih]
      · simp [DeepDiff, hxy]

namespace Kube

/-- The in-memory `kubernetes.Endpoint` object: configured name and
namespace plus the last read snapshot of the cluster resource (`None`
when the last read failed or found nothing). -/
structure Endpoint where
  name : String
  namespace_ : String
  endpoint : Option V1Endpoints
deriving DecidableEq, Repr

/-- `Endpoint._read_endpoint`: calls `read_namespaced_endpoints` and
returns `None` on any `ApiException` (`except ApiException: pass`).
The raw API outcome is passed in as `resp`. -/
def read_endpoint (resp : Except String V1Endpoints) : Option V1Endpoints :=
  match resp with
  | .ok ep => some ep
  | .error _ => none

/-- `Endpoint.__init__` restricted to its state effect:
`self._endpoint = self._read_endpoint()`. -/
def Endpoint.init (nm ns : String) (resp : Except String V1Endpoints) : Endpoint :=
  { name := nm, namespace_ := ns, endpoint := read_endpoint resp }

/-- `Endpoint.refresh`: `self._endpoint = self._read_endpoint()`. -/
def Endpoint.refresh (e : Endpoint) (resp : Except String V1Endpoints) : Endpoint :=
  { e with endpoint := read_endpoint resp }

/-- `Endpoint.__bool__`: truthiness of `self._endpoint` (a `V1Endpoints`
object defines no `__bool__`, so any present object is truthy). -/
def Endpoint.toBool (e : Endpoint) : Bool :=
  e.endpoint.isSome

/-- `Endpoint.addresses` getter.  The source reads
`self._endpoint.subsets[0].addresses` without guarding `subsets`, so a
present resource whose `subsets` is `None` raises `TypeError` and one
whose `subsets` is `[]` raises `IndexError`; both are modelled as
`Except.error`. -/
def Endpoint.addresses (e : Endpoint) : Except String (List Address) :=
  match e.endpoint with
  | none => .ok []
  | some ep =>
    match ep.subsets with
    | none => .error "TypeError: NoneType is not subscriptable"
    | some [] => .error "IndexError: list index out of range"
    | some (sb :: _) =>
      match sb.addresses with
      | none => .ok []
      | some l => .ok l

/-- `Endpoint.ports`: `list(self._endpoint.subsets[0].ports)`, unguarded:
raises when the snapshot is absent, `subsets` is null or empty, or
`ports` is null. -/
def Endpoint.ports (e : Endpoint) : Except String (List PortSpec) :=
  match e.endpoint with
  | none => .error "AttributeError: NoneType has no attribute subsets"
  | some ep =>
    match ep.subsets with
    | none => .error "TypeError: NoneType is not subscriptable"
    | some [] => .error "IndexError: list index out of range"
    | some (sb :: _) =>
      match sb.ports with
      | none => .error "TypeError: NoneType is not iterable"
      | some ps => .ok ps

/-- `Endpoint.diff`: `None` when the snapshot is absent, else
`DeepDiff(self.addresses, addresses).to_dict()`; evaluating
`self.addresses` may itself raise. -/
def Endpoint.diff (e : Endpoint) (value : List Address) :
    Except String (Option (List DiffEntry)) :=
  match e.endpoint with
  | none => .ok none
  | some _ =>
    match Endpoint.addresses e with
    | .error msg => .error msg
    | .ok cur => .ok (some (DeepDiff cur value))

/-- One `patch_namespaced_endpoints` call as issued by
`Endpoint._patch_addresses`: the body's single subset and the
field-manager tag. -/
structure PatchCall where
  name : String
  namespace_ : String
  addresses : List Address
  ports : List PortSpec
  field_manager : String
deriving DecidableEq, Repr

/-- The `Endpoint.addresses` setter:
`if self._endpoint and self.diff(value): self._patch_addresses(value); self.refresh()`.
`patchResp` is the API outcome of the patch call, `reread` the snapshot
returned by the refresh that follows a successful patch.  The result is
the new object state, the patch calls actually issued, and the message
of any exception escaping the setter. -/
def Endpoint.setAddresses (e : Endpoint) (value : List Address)
    (patchResp : Except String Unit) (reread : Except String V1Endpoints) :
    Endpoint × List PatchCall × Option String :=
  match e.endpoint with
  | none => (e, [], none)
  | some ep =>
    match Endpoint.addresses e with
    | .error msg => (e, [], some msg)
    | .ok cur =>
      if DeepDiff cur value = [] then (e, [], none)
      else
        match Endpoint.ports e with
        | .error msg => (e, [], some msg)
        | .ok ps =>
          let call : PatchCall :=
            { name := ep.metadata.name
              namespace_ := ep.metadata.namespace_
              addresses := value
              ports := ps
              field_manager :=
                "kube-endpoint-manager-" ++ ep.metadata.namespace_ ++ "-" ++ ep.metadata.name }
          match patchResp with
          | .error msg => (e, [call], some msg)
          | .ok _ => (Endpoint.refresh e reread, [call], none)

end Kube

namespace OS

/-- One entry of an OpenStack server network address list:
`{"version": ..., "addr": ...}` with `str()` applied to the version. -/
structure NetAddr where
  version : String
  addr : String
deriving DecidableEq, Repr

/-- One OpenStack compute instance, reduced to the fields the manager
reads: name, compute host, the metadata dict and the per-network address
dict (both in Python dict iteration order). -/
structure Server where
  name : String
  compute_host : String
  metadata : List (String × String)
  addresses : List (String × List NetAddr)
deriving DecidableEq, Repr

/-- Match of one pattern character against one subject character:
`none` is the regex `.` wildcard, which matches anything but a newline. -/
def patChar (p : Option Char) (c : Char) : Bool :=
  match p with
  | none => c ≠ '\n'
  | some q => q = c

/-- Match of a fixed-length pattern followed by `$` against the whole
remaining subject: each pattern character consumes one subject
character, and `$` accepts the end of the string or a single trailing
newline (Python `$` semantics). -/
def matchPatDollar : List (Option Char) → List Char → Bool
  | [], [] => true
  | [], ['\n'] => true
  | [], _ :: _ :: _ => false
  | [], [_] => false
  | _ :: _, [] => false
  | p :: ps, c :: cs => patChar p c && matchPatDollar ps cs

/-- `re.match` of a pattern of the shape `.*P$` where `P` is a
fixed-length character pattern: at each position either `P$` matches the
rest, or `.*` consumes one more (non-newline) character. -/
def matchDotStarPatDollar (pat : List (Option Char)) : List Char → Bool
  | [] => matchPatDollar pat []
  | c :: cs => matchPatDollar pat (c :: cs) || (patChar none c && matchDotStarPatDollar pat cs)

/-- The compiled pattern `endpoint.network.name` (dots are wildcards). -/
def netNamePat : List (Option Char) :=
  [some 'e', some 'n', some 'd', some 'p', some 'o', some 'i', some 'n', some 't',
   none,
   some 'n', some 'e', some 't', some 'w', some 'o', some 'r', some 'k',
   none,
   some 'n', some 'a', some 'm', some 'e']

/-- The compiled pattern `endpoint.network.version` (dots are wildcards). -/
def netVersionPat : List (Option Char) :=
  [some 'e', some 'n', some 'd', some 'p', some 'o', some 'i', some 'n', some 't',
   none,
   some 'n', some 'e', some 't', some 'w', some 'o', some 'r', some 'k',
   none,
   some 'v', some 'e', some 'r', some 's', some 'i', some 'o', some 'n']

/-- `re.match(r'.*endpoint.network.name$', key)` as a boolean. -/
def netNameKeyMatch (key : String) : Bool :=
  matchDotStarPatDollar netNamePat key.data

/-- `re.match(r'.*endpoint.network.version$', key)` as a boolean. -/
def netVersionKeyMatch (key : String) : Bool :=
  matchDotStarPatDollar netVersionPat key.data

/-- `Endpoint._metadata_network_name`: value of the first metadata key
matching `.*endpoint.network.name$`, in dict iteration order. -/
def metadata_network_name (s : Server) : Option String :=
  (s.metadata.find? (fun kv => netNameKeyMatch kv.1)).map (fun kv => kv.2)

/-- `Endpoint._metadata_network_version`: value of the first metadata
key matching `.*endpoint.network.version$`. -/
def metadata_network_version (s : Server) : Option String :=
  (s.metadata.find? (fun kv => netVersionKeyMatch kv.1)).map (fun kv => kv.2)

/-- `self._network_version = self._metadata_network_version or "4"`:
Python `or` falls back to `"4"` when the metadata value is absent or the
empty string. -/
def network_version (s : Server) : String :=
  match metadata_network_version s with
  | none => "4"
  | some v => if v = "" then "4" else v

/-- `Endpoint._is_network_version`: vacuously true for a falsy stored
version, else string equality with `str(address['version'])`. -/
def is_network_version (s : Server) (a : NetAddr) : Bool :=
  if network_version s = "" then true
  else network_version s = a.version

/-- `Endpoint._has_named_network`: a truthy metadata network name that is
a key of the server's address dict. -/
def has_named_network (s : Server) : Bool :=
  match metadata_network_name s with
  | none => false
  | some n => if n = "" then false else s.addresses.any (fun p => p.1 = n)

/-- Dict lookup `self._server.addresses[name]` (first binding wins). -/
def lookupNetwork (s : Server) (n : String) : List NetAddr :=
  ((s.addresses.find? (fun p => p.1 = n)).map (fun p => p.2)).getD []

/-- `Endpoint._network_address`: with a named network present in the
address dict, the first version-matching entry of that network;
otherwise the first version-matching entry over all networks in
iteration order; `None` when nothing matches. -/
def network_address (s : Server) : Option String :=
  if has_named_network s then
    ((lookupNetwork s ((metadata_network_name s).getD "")).find?
        (fun a => is_network_version s a)).map (fun a => a.addr)
  else
    (((s.addresses.map (fun p => p.2)).flatten).find?
        (fun a => is_network_version s a)).map (fun a => a.addr)

/-- `Endpoint.has_address`: the resolved address is not `None`. -/
def has_address (s : Server) : Bool :=
  (network_address s).isSome

/-- One configured filter entry of the `filters` dict.  Only the keys
`name` and `metadata` have a `_filter_server_<key>` method; any other
key is skipped by the `hasattr` test in `_is_endpoint_server`. -/
inductive FilterRule where
  | name (pattern : String)
  | metadata (pairs : List (String × String))
  | unknown (key : String)
deriving DecidableEq, Repr

/-- `Endpoints._filter_server_name`: `re.match(_filter, server.name)`.
The regex engine is abstracted as `rmatch pattern subject`. -/
def filter_server_name (rmatch : String → String → Bool) (s : Server) (pat : String) : Bool :=
  rmatch pat s.name

/-- The inner `__filter` of `Endpoints._filter_server_metadata`: scan the
metadata in dict order for the first key matching `filter_key`; the pair
fails when no key matches, and otherwise succeeds iff that first
matching key's value matches `filter_value`. -/
def filterPair (rmatch : String → String → Bool) (s : Server) (fk fv : String) : Bool :=
  match s.metadata.find? (fun kv => rmatch fk kv.1) with
  | none => false
  | some kv => rmatch fv kv.2

/-- `Endpoints._filter_server_metadata`: every `(key, value)` pattern
pair of the metadata filter dict must pass. -/
def filter_server_metadata (rmatch : String → String → Bool) (s : Server)
    (pairs : List (String × String)) : Bool :=
  pairs.all (fun p => filterPair rmatch s p.1 p.2)

/-- `Endpoints._is_endpoint_server`: every configured filter whose key
has a `_filter_server_<key>` method must pass; unknown keys are
skipped. -/
def is_endpoint_server (rmatch : String → String → Bool) (filters : List FilterRule)
    (s : Server) : Bool :=
  filters.all (fun r =>
    match r with
    | .name pat => filter_server_name rmatch s pat
    | .metadata pairs => filter_server_metadata rmatch s pairs
    | .unknown _ => true)

/-- `Endpoints._endpoint_list`: keep the servers that pass the filters
and resolve an address. -/
def endpoint_list (rmatch : String → String → Bool) (filters : List FilterRule)
    (servers : List Server) : List Server :=
  servers.filter (fun s => is_endpoint_server rmatch filters s && has_address s)

/-- `ABCEndpoints.addresses`: map every kept endpoint to a
`V1EndpointAddress(hostname, node_name, ip)`. -/
def extAddresses (rmatch : String → String → Bool) (filters : List FilterRule)
    (servers : List Server) : List Address :=
  (endpoint_list rmatch filters servers).map (fun s =>
    { hostname := s.name, node_name := s.compute_host, ip := network_address s })

end OS

namespace Loop

/-- Observable outcome of one `sync_loop` iteration body: the state of
the kubernetes endpoint object after the tick, the patch calls issued
during it, and the message of an exception escaping the tick body (the
loop has no try/except, so such an exception terminates the process). -/
structure TickResult where
  state : Kube.Endpoint
  patches : List Kube.PatchCall
  crashed : Option String
deriving DecidableEq, Repr

/-- The body of one `sync_loop` iteration (after the sleep), with every
external API outcome passed explicitly:
`kubeApiResp` for `kube_endpoint.refresh()`, `providerResp` for the
OpenStack server listing behind `external_endpoints.refresh()` (which
may raise), `patchResp` for `patch_namespaced_endpoints`, and `reread`
for the read performed by the refresh after a successful patch.
The source order is kept: refresh cluster, log its addresses (evaluating
the getter), refresh external, skip on absent resource, skip on empty
external addresses, compare lists with `!=`, and assign
`kube_endpoint.addresses` (the setter) on inequality, logging the new
addresses afterwards (evaluating the getter again). -/
def sync_tick (kube : Kube.Endpoint)
    (kubeApiResp : Except String V1Endpoints)
    (providerResp : Except String (List OS.Server))
    (rmatch : String → String → Bool) (filters : List OS.FilterRule)
    (patchResp : Except String Unit) (reread : Except String V1Endpoints) :
    TickResult :=
  let kube1 := Kube.Endpoint.refresh kube kubeApiResp
  match Kube.Endpoint.addresses kube1 with
  | .error msg => { state := kube1, patches := [], crashed := some msg }
  | .ok cur =>
    match providerResp with
    | .error msg => { state := kube1, patches := [], crashed := some msg }
    | .ok servers =>
      let extAddrs := OS.extAddresses rmatch filters servers
      if kube1.endpoint.isNone then
        { state := kube1, patches := [], crashed := none }
      else if extAddrs.isEmpty then
        { state := kube1, patches := [], crashed := none }
      else if cur ≠ extAddrs then
        match Kube.Endpoint.setAddresses kube1 extAddrs patchResp reread with
        | (k2, calls, some msg) => { state := k2, patches := calls, crashed := some msg }
        | (k2, calls, none) =>
          match Kube.Endpoint.addresses k2 with
          | .error msg => { state := k2, patches := calls, crashed := some msg }
          | .ok _ => { state := k2, patches := calls, crashed := none }
      else
        { state := kube1, patches := [], crashed := none }

end Loop

@[simp] theorem Kube.Endpoint.refresh_endpoint (e : Kube.Endpoint)
    (r : Except String V1Endpoints) :
    (Kube.Endpoint.refresh e r).endpoint = Kube.read_endpoint r := rfl

/-! Concrete fixtures used to instantiate the quantified theorems. -/

/-- A regex engine that accepts everything (used with an empty filter
set, where the engine is irrelevant). -/
def rmTrue : String → String → Bool := fun _ _ => true

def addrA : Address := { hostname := "a", node_name := "ha", ip := some "10.0.0.1" }

def addrB : Address := { hostname := "b", node_name := "hb", ip := some "10.0.0.2" }

def portHttp : PortSpec := { name := some "http", port := 80, protocol := some "TCP" }

def subAB : Subset := { addresses := some [addrA, addrB], ports := some [portHttp] }

/-- A well-formed cluster resource holding `[addrA, addrB]`. -/
def epAB : V1Endpoints :=
  { metadata := { name := "svc", namespace_ := "default" }, subsets := some [subAB] }

def kubeAB : Kube.Endpoint := { name := "svc", namespace_ := "default", endpoint := some epAB }

/-- A present resource whose `subsets` collection is null. -/
def epNullSubsets : V1Endpoints :=
  { metadata := { name := "svc", namespace_ := "default" }, subsets := none }

def kubeNullSubsets : Kube.Endpoint :=
  { name := "svc", namespace_ := "default", endpoint := some epNullSubsets }

/-- A present resource whose `subsets` collection is empty. -/
def epEmptySubsets : V1Endpoints :=
  { metadata := { name := "svc", namespace_ := "default" }, subsets := some [] }

def kubeEmptySubsets : Kube.Endpoint :=
  { name := "svc", namespace_ := "default", endpoint := some epEmptySubsets }

/-- An OpenStack server that resolves to `addrA`. -/
def serverA : OS.Server :=
  { name := "a", compute_host := "ha", metadata := [],
    addresses := [("net", [{ version := "4", addr := "10.0.0.1" }])] }

/-- An OpenStack server that resolves to `addrB`. -/
def serverB : OS.Server :=
  { name := "b", compute_host := "hb", metadata := [],
    addresses := [("net", [{ version := "4", addr := "10.0.0.2" }])] }

/-- A server naming a target network that is present in its address map. -/
def serverNamed : OS.Server :=
  { name := "web-4", compute_host := "cmp-4",
    metadata := [("endpoint.network.name", "public")],
    addresses := [("public", [{ version := "4", addr := "10.0.0.1" }]),
                  ("private", [{ version := "6", addr := "fd00::1" }])] }

/-- A server naming a target network that is absent from its address
map, while another network holds a version-matching entry. -/
def serverNamedMissing : OS.Server :=
  { name := "web-5", compute_host := "cmp-5",
    metadata := [("endpoint.network.name", "public")],
    addresses := [("private", [{ version := "4", addr := "10.0.0.5" }])] }

/-- A server used to exercise the filter rules. -/
def serverC7 : OS.Server :=
  { name := "web-1", compute_host := "cmp-7",
    metadata := [("env", "prod")],
    addresses := [("net", [{ version := "4", addr := "10.0.0.7" }])] }

/-! The claims. -/

/-- C1: for every tick and every cluster state, if the external
inventory's normalized address list is empty, the tick issues no patch
and the cluster snapshot after the tick is exactly what the refresh
read, untouched by the loop. -/
theorem C1_empty_external_never_patches (kube : Kube.Endpoint)
    (kubeApiResp : Except String V1Endpoints) (servers : List OS.Server)
    (rmatch : String → String → Bool) (filters : List OS.FilterRule)
    (patchResp : Except String Unit) (reread : Except String V1Endpoints)
    (hempty : OS.extAddresses rmatch filters servers = []) :
    (Loop.sync_tick kube kubeApiResp (.ok servers) rmatch filters patchResp reread).patches
        = [] ∧
    (Loop.sync_tick kube kubeApiResp (.ok servers) rmatch filters patchResp reread).state.endpoint
        = Kube.read_endpoint kubeApiResp := by
  cases h1 : Kube.Endpoint.addresses (Kube.Endpoint.refresh kube kubeApiResp) with
  | error msg => simp [Loop.sync_tick, h1]
  | ok cur => simp [Loop.sync_tick, h1, hempty]

/-- Witness for C1 at a concrete input: a populated cluster resource and
a provider listing that matches zero instances. -/
theorem C1_empty_external_never_patches_witness :
    (Loop.sync_tick kubeAB (.ok epAB) (.ok ([] : List OS.Server)) rmTrue []
        (.ok ()) (.ok epAB)).patches = [] ∧
    (Loop.sync_tick kubeAB (.ok epAB) (.ok ([] : List OS.Server)) rmTrue []
        (.ok ()) (.ok epAB)).state.endpoint = Kube.read_endpoint (.ok epAB) :=
  C1_empty_external_never_patches kubeAB (.ok epAB) [] rmTrue [] (.ok ()) (.ok epAB) rfl

/-- C2: for every tick and every external inventory content, a cluster
read that reported absence means no patch is attempted and the tick
does not crash; and the addresses setter is a no-op on an absent
snapshot. -/
theorem C2_absent_resource_no_patch (kube : Kube.Endpoint) (err : String)
    (servers : List OS.Server) (rmatch : String → String → Bool)
    (filters : List OS.FilterRule) (patchResp : Except String Unit)
    (reread : Except String V1Endpoints) (value : List Address)
    (pr : Except String Unit) (rr : Except String V1Endpoints) :
    (Loop.sync_tick kube (.error err) (.ok servers) rmatch filters patchResp reread).patches
        = [] ∧
    (Loop.sync_tick kube (.error err) (.ok servers) rmatch filters patchResp reread).crashed
        = none ∧
    Kube.Endpoint.setAddresses { kube with endpoint := none } value pr rr
        = ({ kube with endpoint := none }, [], none) :=
  ⟨rfl, rfl, rfl⟩

/-- C4: applying a candidate equal to the current address list is a
no-op: the diff is empty and the setter issues no patch and leaves the
state unchanged. -/
theorem C4_apply_idempotent (e : Kube.Endpoint) (ep : V1Endpoints) (X : List Address)
    (patchResp : Except String Unit) (reread : Except String V1Endpoints)
    (hex : e.endpoint = some ep) (hcur : Kube.Endpoint.addresses e = .ok X) :
    Kube.Endpoint.diff e X = .ok (some []) ∧
    Kube.Endpoint.setAddresses e X patchResp reread = (e, [], none) := by
  have hdd : DeepDiff X X = [] := (DeepDiff_eq_nil_iff X X).mpr rfl
  constructor
  · simp [Kube.Endpoint.diff, hex, hcur, hdd]
  · simp [Kube.Endpoint.setAddresses, hex, hcur, hdd]

/-- Witness for C4 at a concrete input: the resource holds
`[addrA, addrB]` and the candidate is the same list. -/
theorem C4_apply_idempotent_witness :
    Kube.Endpoint.diff kubeAB [addrA, addrB] = .ok (some []) ∧
    Kube.Endpoint.setAddresses kubeAB [addrA, addrB] (.ok ()) (.ok epAB)
        = (kubeAB, [], none) :=
  C4_apply_idempotent kubeAB epAB [addrA, addrB] (.ok ()) (.ok epAB) rfl rfl

/-- C8: the sync loop body has no exception boundary, so a provider
listing failure, and likewise a failing patch call, escape the tick
(and hence terminate the process) instead of being caught and logged.
The claim that such failures abort only the current tick does not hold
of the code; the spec's stated intent is the claim, so this is a code
gap.  Evaluated at concrete failing inputs. -/
theorem C8_per_tick_errors_escape_loop :
    (Loop.sync_tick kubeAB (.ok epAB) (.error "AuthFailure") rmTrue []
        (.ok ()) (.ok epAB)).crashed = some "AuthFailure" ∧
    (Loop.sync_tick kubeAB (.ok epAB) (.ok [serverA]) rmTrue []
        (.error "PatchRejected") (.ok epAB)).crashed = some "PatchRejected" := by
  decide

/-- C10: every API read error is absorbed: constructor and refresh both
store the absent state, the store then reports non-existence and an
empty address list, the tick issues no patch and does not crash, and
the stored snapshot is the same as after a genuine not-found. -/
theorem C10_read_errors_mean_absence (nm ns err : String) (e : Kube.Endpoint)
    (servers : List OS.Server) (rmatch : String → String → Bool)
    (filters : List OS.FilterRule) (patchResp : Except String Unit)
    (reread : Except String V1Endpoints) :
    (Kube.Endpoint.init nm ns (.error err)).endpoint = none ∧
    (Kube.Endpoint.refresh e (.error err)).endpoint = none ∧
    Kube.Endpoint.toBool (Kube.Endpoint.refresh e (.error err)) = false ∧
    Kube.Endpoint.addresses (Kube.Endpoint.refresh e (.error err)) = .ok [] ∧
    Kube.read_endpoint (.error err) = Kube.read_endpoint (.error "NotFound") ∧
    (Loop.sync_tick e (.error err) (.ok servers) rmatch filters patchResp reread).patches
        = [] ∧
    (Loop.sync_tick e (.error err) (.ok servers) rmatch filters patchResp reread).crashed
        = none :=
  ⟨rfl, rfl, rfl, rfl, rfl, rfl, rfl⟩

/-- C3 counterexample: the cluster holds `[addrA, addrB]` and the
external inventory resolves to `[addrB, addrA]` — the same multiset of
Address values in a different order — yet the tick issues a patch,
refuting the claim that set-style equality drives the apply decision. -/
theorem C3_counterexample :
    Kube.Endpoint.addresses kubeAB = .ok [addrA, addrB] ∧
    OS.extAddresses rmTrue [] [serverB, serverA] = [addrB, addrA] ∧
    List.Perm [addrA, addrB] [addrB, addrA] ∧
    (Loop.sync_tick kubeAB (.ok epAB) (.ok [serverB, serverA]) rmTrue []
        (.ok ()) (.ok epAB)).patches ≠ [] := by
  refine ⟨rfl, rfl, by decide, by decide⟩

/-- C3 (amended): with the resource present and well-formed and the
external inventory non-empty, the tick issues a patch iff the cluster
address list and the external address list differ as ordered lists
(Python list `!=`); order is significant, not multiset equality. -/
theorem C3_patch_iff_list_inequality (kube : Kube.Endpoint) (ep : V1Endpoints)
    (sb : Subset) (tl : List Subset) (ps : List PortSpec)
    (servers : List OS.Server) (rmatch : String → String → Bool)
    (filters : List OS.FilterRule) (patchResp : Except String Unit)
    (reread : Except String V1Endpoints) (cur : List Address)
    (hsub : ep.subsets = some (sb :: tl)) (hports : sb.ports = some ps)
    (hcur : Kube.Endpoint.addresses { kube with endpoint := some ep } = .ok cur)
    (hext : OS.extAddresses rmatch filters servers ≠ []) :
    ((Loop.sync_tick kube (.ok ep) (.ok servers) rmatch filters patchResp reread).patches ≠ [])
      ↔ cur ≠ OS.extAddresses rmatch filters servers := by
  have h1 : Kube.Endpoint.addresses (Kube.Endpoint.refresh kube (.ok ep)) = .ok cur := hcur
  have hiE : (OS.extAddresses rmatch filters servers).isEmpty = false := by
    simpa [List.isEmpty_iff] using hext
  constructor
  · intro hp heq
    apply hp
    simp [Loop.sync_tick, h1, hiE, heq, Kube.read_endpoint]
  · intro hne
    have hdd : ¬ DeepDiff cur (OS.extAddresses rmatch filters servers) = [] := by
      simpa [DeepDiff_eq_nil_iff] using hne
    cases patchResp with
    | error msg =>
        simp [Loop.sync_tick, h1, hiE, hne, Kube.read_endpoint,
              Kube.Endpoint.setAddresses, hdd, Kube.Endpoint.ports, hsub, hports]
    | ok u =>
        simp only [Loop.sync_tick, h1, hiE, Kube.read_endpoint, Kube.Endpoint.refresh_endpoint,
          Option.isNone_some, Bool.false_eq_true, if_false, ne_eq, hne, not_false_eq_true,
          if_true, Kube.Endpoint.setAddresses, hdd, Kube.Endpoint.ports, hsub, hports]
        split <;> simp_all

/-- Witness for the amended C3 at a concrete input: the cluster holds
`[addrA, addrB]`, the external inventory resolves to `[addrA]`. -/
theorem C3_patch_iff_list_inequality_witness :
    ((Loop.sync_tick kubeAB (.ok epAB) (.ok [serverA]) rmTrue [] (.ok ())
        (.ok epAB)).patches ≠ [])
      ↔ [addrA, addrB] ≠ OS.extAddresses rmTrue [] [serverA] :=
  C3_patch_iff_list_inequality kubeAB epAB subAB [] [portHttp] [serverA] rmTrue []
    (.ok ()) (.ok epAB) [addrA, addrB] rfl rfl rfl (by decide)

/-- C5 counterexample: an instance whose metadata names target network
`public`, absent from its address map, is not dropped: the code falls
back to scanning all networks and resolves `10.0.0.5` from `private`. -/
theorem C5_counterexample :
    OS.metadata_network_name serverNamedMissing = some "public" ∧
    (serverNamedMissing.addresses.any (fun p => p.1 = "public")) = false ∧
    OS.network_address serverNamedMissing = some "10.0.0.5" ∧
    OS.has_address serverNamedMissing = true := by
  decide

/-- C5 (amended): when the instance metadata designates a target network
name, two regimes exist.  If the name is non-empty and present in the
instance's address map, only that network's entries are considered: the
resolved ip is its first version-matching entry, and with no such entry
the instance resolves no address (and is dropped).  But if the named
network is absent from the address map (or the name is empty), the code
falls back to scanning all networks in iteration order, exactly as for
instances without a target network name. -/
theorem C5_named_network_selection (s : OS.Server) (n : String)
    (h : OS.metadata_network_name s = some n) :
    (n ≠ "" → (s.addresses.any (fun p => p.1 = n)) = true →
        OS.network_address s
            = ((OS.lookupNetwork s n).find? (fun a => OS.is_network_version s a)).map
                (fun a => a.addr) ∧
        (((OS.lookupNetwork s n).find? (fun a => OS.is_network_version s a)) = none →
            OS.has_address s = false)) ∧
    ((n = "" ∨ (s.addresses.any (fun p => p.1 = n)) = false) →
        OS.network_address s
            = (((s.addresses.map (fun p => p.2)).flatten).find?
                (fun a => OS.is_network_version s a)).map (fun a => a.addr)) := by
  constructor
  · intro hne hmem
    have hnn : OS.has_named_network s = true := by
      simp [OS.has_named_network, h, hne, hmem]
    constructor
    · simp [OS.network_address, hnn, h]
    · intro hfind
      simp [OS.has_address, OS.network_address, hnn, h, hfind]
  · intro hcase
    have hnn : OS.has_named_network s = false := by
      rcases hcase with he | hany
      · simp [OS.has_named_network, h, he]
      · simp [OS.has_named_network, h, hany]
    simp [OS.network_address, hnn]

/-- Witness for the amended C5 at a concrete input: the named network is
present, so only its entries are scanned. -/
theorem C5_named_network_selection_witness :
    OS.network_address serverNamed
        = ((OS.lookupNetwork serverNamed "public").find?
            (fun a => OS.is_network_version serverNamed a)).map (fun a => a.addr) :=
  ((C5_named_network_selection serverNamed "public" rfl).1 (by decide) (by decide)).1

/-- For any predicates `p` and `q`, splitting a filter on `q` preserves
total length. -/
theorem filter_split_length {α : Type} (p q : α → Bool) (l : List α) :
    (l.filter (fun x => p x && q x)).length
        + (l.filter (fun x => p x && !q x)).length
      = (l.filter p).length := by
  induction l with
  | nil => rfl
  | cons x xs ih =>
    by_cases hp : p x = true <;> by_cases hq : q x = true <;>
      simp [List.filter, hp, hq, ih] <;> omega

/-- C6: every address the external inventory emits carries a resolved
(non-null) ip, and each matching instance without a resolvable address
shortens the emitted list by one relative to the matching instances. -/
theorem C6_emitted_ips_non_null (rmatch : String → String → Bool)
    (filters : List OS.FilterRule) (servers : List OS.Server) :
    (∀ a ∈ OS.extAddresses rmatch filters servers, a.ip.isSome = true) ∧
    (OS.extAddresses rmatch filters servers).length
        + (servers.filter (fun s => OS.is_endpoint_server rmatch filters s
              && !(OS.has_address s))).length
      = (servers.filter (fun s => OS.is_endpoint_server rmatch filters s)).length := by
  constructor
  · intro a ha
    simp only [OS.extAddresses, OS.endpoint_list, List.mem_map, List.mem_filter,
      Bool.and_eq_true] at ha
    obtain ⟨s, ⟨hs, hmatch, haddr⟩, rfl⟩ := ha
    simpa [OS.has_address] using haddr
  · have hlen : (OS.extAddresses rmatch filters servers).length
        = (servers.filter (fun s => OS.is_endpoint_server rmatch filters s
              && OS.has_address s)).length := by
      simp [OS.extAddresses, OS.endpoint_list]
    rw [hlen]
    exact filter_split_length _ _ servers

/-- C7: the filter decision is the conjunction over all configured rule
categories, and within the metadata category the conjunction over all
key/value pattern pairs, where one pair passes iff some metadata key
matches the key pattern (the first such key in scan order decides) and
that key's value matches the value pattern. -/
theorem C7_filter_is_conjunction (rmatch : String → String → Bool)
    (filters : List OS.FilterRule) (s : OS.Server) :
    OS.is_endpoint_server rmatch filters s = true ↔
      ((∀ pat, OS.FilterRule.name pat ∈ filters → rmatch pat s.name = true) ∧
       (∀ pairs, OS.FilterRule.metadata pairs ∈ filters →
          ∀ fk fv, (fk, fv) ∈ pairs →
            ∃ kv, s.metadata.find? (fun q => rmatch fk q.1) = some kv ∧
                  rmatch fv kv.2 = true)) := by
  simp only [OS.is_endpoint_server, List.all_eq_true]
  constructor
  · intro h
    constructor
    · intro pat hmem
      simpa [OS.filter_server_name] using h _ hmem
    · intro pairs hmem fk fv hpair
      have h2 := h _ hmem
      simp only [OS.filter_server_metadata, List.all_eq_true] at h2
      have h3 := h2 _ hpair
      unfold OS.filterPair at h3
      cases hfind : s.metadata.find? (fun q => rmatch fk q.1) with
      | none => rw [hfind] at h3; exact absurd h3 (by simp)
      | some kv => rw [hfind] at h3; exact ⟨kv, rfl, h3⟩
  · rintro ⟨hname, hmeta⟩ r hr
    cases r with
    | name pat => simpa [OS.filter_server_name] using hname pat hr
    | metadata pairs =>
      simp only [OS.filter_server_metadata, List.all_eq_true]
      intro p hp
      obtain ⟨kv, hfind, hval⟩ := hmeta pairs hr p.1 p.2 hp
      simp [OS.filterPair, hfind, hval]
    | unknown k => rfl

/-- Witness for C6 at a concrete input: the single emitted address has a
resolved ip. -/
theorem C6_emitted_ips_non_null_witness :
    addrA.ip.isSome = true :=
  (C6_emitted_ips_non_null rmTrue [] [serverA]).1 addrA (by decide)

/-- Witness for C7 at a concrete input: an exact-equality engine, a name
rule and one metadata pair, all satisfied by `serverC7`. -/
theorem C7_filter_is_conjunction_witness :
    (fun p t => decide (p = t)) "web-1" serverC7.name = true :=
  ((C7_filter_is_conjunction (fun p t => decide (p = t))
      [OS.FilterRule.name "web-1", OS.FilterRule.metadata [("env", "prod")]]
      serverC7).mp (by decide)).1 "web-1" (by decide)

/-- C9 counterexample: a present resource whose `subsets` is null, and
one whose `subsets` is empty, make the addresses getter raise instead of
returning a list. -/
theorem C9_counterexample :
    Kube.Endpoint.addresses kubeNullSubsets
        = .error "TypeError: NoneType is not subscriptable" ∧
    Kube.Endpoint.addresses kubeEmptySubsets
        = .error "IndexError: list index out of range" ∧
    (∀ l : List Address, Kube.Endpoint.addresses kubeNullSubsets ≠ .ok l) := by
  refine ⟨rfl, rfl, fun l h => Except.noConfusion h⟩

/-- C9 (amended): the addresses accessor returns the empty list when the
resource is absent, and the first subset's address list (empty when that
field is null) when `subsets` has a first element; but when the resource
exists with `subsets` null or empty, the accessor raises instead of
returning a list. -/
theorem C9_addresses_characterization (e : Kube.Endpoint) :
    (e.endpoint = none → Kube.Endpoint.addresses e = .ok []) ∧
    (∀ ep sb tl, e.endpoint = some ep → ep.subsets = some (sb :: tl) →
        Kube.Endpoint.addresses e = .ok (sb.addresses.getD [])) ∧
    (∀ ep, e.endpoint = some ep → (ep.subsets = none ∨ ep.subsets = some []) →
        ∃ msg, Kube.Endpoint.addresses e = .error msg) := by
  refine ⟨?_, ?_, ?_⟩
  · intro h
    simp [Kube.Endpoint.addresses, h]
  · intro ep sb tl h hs
    cases ha : sb.addresses <;> simp [Kube.Endpoint.addresses, h, hs, ha]
  · rintro ep h (hs | hs)
    · exact ⟨"TypeError: NoneType is not subscriptable",
        by simp [Kube.Endpoint.addresses, h, hs]⟩
    · exact ⟨"IndexError: list index out of range",
        by simp [Kube.Endpoint.addresses, h, hs]⟩

/-- Witness for the amended C9 at concrete inputs: a well-formed
resource yields its first subset's addresses, and a null-`subsets`
resource raises. -/
theorem C9_addresses_characterization_witness :
    Kube.Endpoint.addresses kubeAB = .ok [addrA, addrB] ∧
    (∃ msg, Kube.Endpoint.addresses kubeNullSubsets = .error msg) :=
  ⟨(C9_addresses_characterization kubeAB).2.1 epAB subAB [] rfl rfl,
   (C9_addresses_characterization kubeNullSubsets).2.2 epNullSubsets rfl (Or.inl rfl)⟩
